import Mathlib

/-!
Shallow embedding of the movie reservation API (`app.py`, `payment_service.py`).

The persistent store (SQLAlchemy models) is modelled as lists of records held
in a `DB` structure; each HTTP handler becomes a pure function from request
data and the current `DB` to a response together with the new `DB` (and, for
the booking endpoint, the list of socket events it emits).  Nondeterministic
inputs of the payment gateway — the `random.random()` draw and the generated
transaction id — are passed in as explicit parameters.
-/

namespace MovieApi

/-- Model `Movie`: id, title, director, optional rating (`app.py`). -/
structure Movie where
  id : Nat
  title : String
  director : String
  rating : Option Rat
deriving DecidableEq

/-- Model `Theater`: id, name, location (`app.py`). -/
structure Theater where
  id : Nat
  name : String
  location : String
deriving DecidableEq

/-- Model `Showtime`: id, price, movie and theater foreign keys (`app.py`).
The `show_time` timestamp plays no role in any endpoint logic modelled here
beyond storage, so it is carried as the formatted string. -/
structure Showtime where
  id : Nat
  show_time : String
  price : Rat
  movie_id : Nat
  theater_id : Nat
deriving DecidableEq

/-- Model `Seat`: id, row, number, derived code, theater foreign key
(`app.py`). -/
structure Seat where
  id : Nat
  row : String
  number : Nat
  code : String
  theater_id : Nat
deriving DecidableEq

/-- Model `Booking`: id, seat code, user and showtime foreign keys
(`app.py`). -/
structure Booking where
  id : Nat
  seat_code : String
  user_id : Nat
  showtime_id : Nat
deriving DecidableEq

/-- Model `Review`: id, text, rating, sentiment score, user and movie foreign
keys (`app.py`). -/
structure Review where
  id : Nat
  text : String
  rating : Int
  sentiment_score : Rat
  user_id : Nat
  movie_id : Nat
deriving DecidableEq

/-- The persistent store: one list per table, plus autoincrement counters for
the primary keys assigned at insert. -/
structure DB where
  theaters : List Theater
  showtimes : List Showtime
  seats : List Seat
  bookings : List Booking
  reviews : List Review
  nextSeatId : Nat
  nextBookingId : Nat
  nextReviewId : Nat
deriving DecidableEq

/-! ## Payment gateway (`payment_service.py`) -/

/-- The `card_details` JSON object of a booking request.  `number` is the
string form (`str(card_number)`) of the card number field, `none` when the
field is absent. -/
structure CardInfo where
  number : Option String
deriving DecidableEq

/-- Value of `card_details.get('number', '')` applied after
`data.get('card_details', {})`: the string form of the card number, with `""`
as default when `card_details` or its `number` field is missing. -/
def cardNumberStr (card_details : Option CardInfo) : String :=
  match card_details with
  | none => ""
  | some c => c.number.getD ""

/-- Result dictionary of `MockPaymentGateway.process_payment`:
`{'success': Bool, 'transaction_id': Str, 'error': Str}`. -/
structure PaymentResult where
  success : Bool
  transaction_id : Option String
  error : Option String
deriving DecidableEq

/-- Gateway call `MockPaymentGateway.process_payment(card_details, amount)`.  The (purely
latency-simulating) `time.sleep(2)` is dropped; the `random.random()` draw is
the explicit parameter `rand` and the generated `uuid`-based transaction id is
the explicit parameter `txn`. -/
def process_payment (card_details : Option CardInfo) (amount : Rat)
    (rand : Rat) (txn : String) : PaymentResult :=
  let card_number := cardNumberStr card_details
  let _ := amount
  if card_number.length ≠ 16 then
    { success := false, transaction_id := none,
      error := some "Invalid Card Number: Must be 16 digits." }
  else if rand < mkRat 1 10 then
    { success := false, transaction_id := none,
      error := some "Transaction Declined: Insufficient Funds." }
  else
    { success := true, transaction_id := some txn, error := none }

/-- A card number string consisting of exactly 16 decimal digits — the format
the spec describes as "exactly 16 digits". -/
def isSixteenDigits (s : String) : Bool :=
  s.length == 16 && s.toList.all (fun ch => ch.isDigit)

/-! ## Review endpoint (`add_review` in `app.py`) -/

/-- Response body `sentiment_analysis` of `POST /reviews`. -/
structure ReviewResponse where
  score : Rat
  verdict : String
deriving DecidableEq

/-- Handler `add_review` (`POST /reviews`): stores the review with the sentiment
score and returns the score together with the threshold verdict
`'Positive' if polarity > 0 else 'Negative'`.  The polarity computed by the
external `TextBlob` library is the explicit parameter `polarity`. -/
def add_review (user_id movie_id : Nat) (text : String) (rating : Int)
    (polarity : Rat) (db : DB) : ReviewResponse × DB :=
  let new_review : Review :=
    { id := db.nextReviewId, text := text, rating := rating,
      sentiment_score := polarity, user_id := user_id, movie_id := movie_id }
  ({ score := polarity,
     verdict := if polarity > 0 then "Positive" else "Negative" },
   { db with reviews := db.reviews ++ [new_review],
             nextReviewId := db.nextReviewId + 1 })

/-! ## Booking endpoint (`book_ticket` in `app.py`) -/

/-- JSON body of `POST /bookings`: `{showtime_id, seat_code, card_details}`.
`card_details` is `none` when the key is absent (`data.get('card_details', {})`
then defaults it to an empty dict). -/
structure BookingRequest where
  showtime_id : Nat
  seat_code : String
  card_details : Option CardInfo
deriving DecidableEq

/-- The error responses `book_ticket` can return before creating a booking:
404 showtime lookup failure, 400 seat-existence failure, 400 seat-taken
failure, and 400 payment failure (carrying the gateway's `error` field
verbatim). -/
inductive BookErr where
  | notFound (message : String)
  | invalidSeat (message : String)
  | seatTaken (message : String)
  | paymentFailed (message : String) (error : Option String)
deriving DecidableEq

/-- Outcome of `book_ticket`: one of the error responses, or the 201
`Booking confirmed!` response carrying `booking_id` and `transaction_id`. -/
inductive BookResult where
  | err (e : BookErr)
  | confirmed (booking_id : Nat) (transaction_id : String)
deriving DecidableEq

/-- Whether a `BookResult` is the 201 success response. -/
def BookResult.isSuccess : BookResult → Bool
  | .err _ => false
  | .confirmed _ _ => true

/-- HTTP status code attached to each `book_ticket` outcome in `app.py`. -/
def statusCode : BookResult → Nat
  | .err (.notFound _) => 404
  | .err (.invalidSeat _) => 400
  | .err (.seatTaken _) => 400
  | .err (.paymentFailed _ _) => 400
  | .confirmed _ _ => 201

/-- A `socketio.emit` broadcast event. -/
structure Event where
  name : String
  showtime_id : Nat
  seat_code : String
deriving DecidableEq

/-- The part of `book_ticket` that runs before any write: showtime lookup,
seat-existence check against the showtime's theater, availability check on the
`(showtime_id, seat_code)` pair, and the payment call.  Returns `some e` when
the handler returns early with error `e`, and `none` when control reaches the
booking insert. -/
def bookCheckPhase (req : BookingRequest) (rand : Rat) (txn : String)
    (db : DB) : Option BookErr :=
  match db.showtimes.find? (fun s => s.id == req.showtime_id) with
  | none => some (.notFound "Showtime not found")
  | some showtime =>
    match db.seats.find? (fun s =>
        s.theater_id == showtime.theater_id && s.code == req.seat_code) with
    | none => some (.invalidSeat
        ("Seat " ++ req.seat_code ++ " does not exist in this theater!"))
    | some _ =>
      match db.bookings.find? (fun b =>
          b.showtime_id == req.showtime_id && b.seat_code == req.seat_code) with
      | some _ => some (.seatTaken "Sorry, that seat is already booked!")
      | none =>
        let payment_response := process_payment req.card_details showtime.price rand txn
        if payment_response.success then none
        else some (.paymentFailed "Payment Failed" payment_response.error)

/-- The write part of `book_ticket`, reached only when `bookCheckPhase`
returns `none`: insert the new `Booking`, commit, and emit the `seat_booked`
broadcast. -/
def bookCommitPhase (user_id : Nat) (req : BookingRequest) (txn : String)
    (db : DB) : BookResult × DB × List Event :=
  let new_booking : Booking :=
    { id := db.nextBookingId, seat_code := req.seat_code,
      user_id := user_id, showtime_id := req.showtime_id }
  (.confirmed new_booking.id txn,
   { db with bookings := db.bookings ++ [new_booking],
             nextBookingId := db.nextBookingId + 1 },
   [{ name := "seat_booked", showtime_id := req.showtime_id,
      seat_code := req.seat_code }])

/-- Handler `book_ticket` (`POST /bookings`), run to completion as one atomic request:
the check/payment phase followed, when it passes, by the insert/commit/emit
phase.  `user_id` is the JWT identity, `rand` and `txn` are the payment
gateway's nondeterministic inputs. -/
def book_ticket (user_id : Nat) (req : BookingRequest) (rand : Rat)
    (txn : String) (db : DB) : BookResult × DB × List Event :=
  match bookCheckPhase req rand txn db with
  | some e => (.err e, db, [])
  | none => bookCommitPhase user_id req txn db

/-! ## Seat creation endpoint (`add_seats_to_theater` in `app.py`) -/

/-- JSON body of `POST /theaters/{id}/seats`:
`{ "rows": ["A", "B"], "seats_per_row": 5 }`. -/
structure SeatRequest where
  rows : List String
  seats_per_row : Nat
deriving DecidableEq

/-- Body of the inner loop of `add_seats_to_theater`: add the seat numbered
`i + 1` of the given row (the loop runs over `range(1, seats_per_row + 1)`,
modelled as `i + 1` for `i` in `List.range seats_per_row`), and record its
code. -/
def addSeatStep (theaterId : Nat) (row : String) (acc : DB × List String)
    (i : Nat) : DB × List String :=
  let num := i + 1
  let code := row ++ toString num
  let new_seat : Seat :=
    { id := acc.1.nextSeatId, row := row, number := num,
      code := code, theater_id := theaterId }
  ({ acc.1 with seats := acc.1.seats ++ [new_seat],
                nextSeatId := acc.1.nextSeatId + 1 },
   acc.2 ++ [code])

/-- Body of the outer loop of `add_seats_to_theater`: add all seats of one
row. -/
def addRowSeats (theaterId seats_per_row : Nat) (acc : DB × List String)
    (row : String) : DB × List String :=
  (List.range seats_per_row).foldl (addSeatStep theaterId row) acc

/-- Handler `add_seats_to_theater` (`POST /theaters/{id}/seats`): for each row and
each number `1..seats_per_row`, add a `Seat` with code `row ++ number` to the
theater, accumulating the list of created codes; `none` models the
`get_or_404` failure when the theater id does not exist.  The source's nested
loops become folds; no check against existing seats is performed. -/
def add_seats_to_theater (theater_id : Nat) (req : SeatRequest) (db : DB) :
    Option (DB × List String) :=
  match db.theaters.find? (fun t => t.id == theater_id) with
  | none => none
  | some theater =>
    some (req.rows.foldl (addRowSeats theater.id req.seats_per_row) (db, []))

/-! ## Invariant predicates -/

/-- Two bookings collide when they hold the same `(showtime_id, seat_code)`
pair. -/
def seatConflict (b1 b2 : Booking) : Bool :=
  b1.showtime_id == b2.showtime_id && b1.seat_code == b2.seat_code

/-- The core consistency invariant: no two bookings in the table share a
`(showtime_id, seat_code)` pair. -/
def noDupSeatPairs : List Booking → Bool
  | [] => true
  | b :: rest => !(rest.any (seatConflict b)) && noDupSeatPairs rest

/-- Two seats collide when they belong to the same theater and share a
code. -/
def codeConflict (s1 s2 : Seat) : Bool :=
  s1.theater_id == s2.theater_id && s1.code == s2.code

/-- Seat-code uniqueness within each theater: no two seats in the table share
a `(theater_id, code)` pair. -/
def noDupSeatCodes : List Seat → Bool
  | [] => true
  | s :: rest => !(rest.any (codeConflict s)) && noDupSeatCodes rest

/-- The database content of a `Seat` record, minus its autoincrement id. -/
def seatData (s : Seat) : String × Nat × String × Nat :=
  (s.row, s.number, s.code, s.theater_id)

/-! ## Execution models for sequences of booking attempts

A booking attempt bundles the request with the requester identity and the
payment gateway's nondeterministic inputs.  `runSeq` executes attempts
sequentially, each one atomically to completion.  `runSchedule` executes a set
of attempts concurrently: each request is a little state machine whose
check/payment phase and insert/commit phase are separate steps, exactly the
two halves of `book_ticket`, and a schedule interleaves those steps. -/

/-- One booking attempt: requester, request body, and the payment gateway's
nondeterministic inputs. -/
structure BookAttempt where
  user_id : Nat
  req : BookingRequest
  rand : Rat
  txn : String
deriving DecidableEq

/-- Sequential execution: each attempt runs `book_ticket` to completion
before the next starts. -/
def runSeq (attempts : List BookAttempt) (db : DB) : DB :=
  attempts.foldl (fun d a => (book_ticket a.user_id a.req a.rand a.txn d).2.1) db

/-- Progress of one in-flight booking request: not yet started, past the
check/payment phase and about to insert, or finished with a result. -/
inductive Phase where
  | start
  | ready
  | finished (r : BookResult)
deriving DecidableEq

/-- An in-flight booking request: the attempt data plus its current phase. -/
structure ReqState where
  attempt : BookAttempt
  phase : Phase
deriving DecidableEq

/-- Advance one in-flight request by one step against the shared database:
from `start`, run the check/payment phase (`bookCheckPhase`) — on error the
request finishes, otherwise it becomes `ready`; from `ready`, run the
insert/commit/emit phase (`bookCommitPhase`).  A finished request does not
move. -/
def stepReq (db : DB) (rs : ReqState) : DB × ReqState × List Event :=
  match rs.phase with
  | .start =>
    match bookCheckPhase rs.attempt.req rs.attempt.rand rs.attempt.txn db with
    | some e => (db, { rs with phase := .finished (.err e) }, [])
    | none => (db, { rs with phase := .ready }, [])
  | .ready =>
    match bookCommitPhase rs.attempt.user_id rs.attempt.req rs.attempt.txn db with
    | (r, db2, evs) => (db2, { rs with phase := .finished r }, evs)
  | .finished _ => (db, rs, [])

/-- Global state of a concurrent execution: the shared database, the in-flight
requests, and the events emitted so far. -/
structure ConcState where
  db : DB
  reqs : List ReqState
  events : List Event
deriving DecidableEq

/-- Schedule one step of request `i` (out-of-range indices are no-ops). -/
def concStep (s : ConcState) (i : Nat) : ConcState :=
  match s.reqs[i]? with
  | none => s
  | some rs =>
    match stepReq s.db rs with
    | (db2, rs2, evs) =>
      { db := db2, reqs := s.reqs.set i rs2, events := s.events ++ evs }

/-- Run a schedule: an interleaving of steps of the in-flight requests. -/
def runSchedule (sched : List Nat) (s : ConcState) : ConcState :=
  sched.foldl concStep s

/-- Start a concurrent execution of the given attempts on a database. -/
def initConc (attempts : List BookAttempt) (db : DB) : ConcState :=
  { db := db, reqs := attempts.map (fun a => { attempt := a, phase := .start }),
    events := [] }

/-! ## Concrete fixtures

A small concrete population of the store — one theater with seats `A1`..`A5`
and two showtimes, mirroring the worked example in the spec — used to witness
the theorems below on explicit inputs. -/

/-- A theater. -/
def sampleTheater : Theater := { id := 1, name := "Grand", location := "Downtown" }

/-- Seats `A1`..`A5` of the sample theater. -/
def sampleSeats : List Seat :=
  (List.range 5).map (fun i =>
    { id := i + 1, row := "A", number := i + 1,
      code := "A" ++ toString (i + 1), theater_id := 1 })

/-- First showtime in the sample theater. -/
def sampleShow1 : Showtime :=
  { id := 1, show_time := "2024-12-01 18:30", price := 10, movie_id := 1, theater_id := 1 }

/-- Second showtime in the same theater. -/
def sampleShow2 : Showtime :=
  { id := 2, show_time := "2024-12-01 21:30", price := 12, movie_id := 1, theater_id := 1 }

/-- The populated sample store, with no bookings yet. -/
def sampleDb : DB :=
  { theaters := [sampleTheater], showtimes := [sampleShow1, sampleShow2],
    seats := sampleSeats, bookings := [], reviews := [],
    nextSeatId := 6, nextBookingId := 1, nextReviewId := 1 }

/-- A well-formed 16-character card. -/
def validCard : Option CardInfo := some { number := some "1234567890123456" }

/-- The sample store after seat `A1` of showtime 1 has been booked by
user 7. -/
def bookedDb : DB :=
  { sampleDb with
    bookings := [{ id := 1, seat_code := "A1", user_id := 7, showtime_id := 1 }],
    nextBookingId := 2 }

/-- An entirely empty store. -/
def emptyDb : DB :=
  { theaters := [], showtimes := [], seats := [], bookings := [], reviews := [],
    nextSeatId := 1, nextBookingId := 1, nextReviewId := 1 }

/-- A booking attempt by user 7 for seat `A1` of showtime 1, with a valid
card and a random draw that does not hit the 10% decline. -/
def attemptA : BookAttempt :=
  { user_id := 7, req := { showtime_id := 1, seat_code := "A1", card_details := validCard },
    rand := mkRat 1 2, txn := "txn_a" }

/-- A second, concurrent attempt by user 8 for the same seat of the same
showtime. -/
def attemptB : BookAttempt :=
  { user_id := 8, req := { showtime_id := 1, seat_code := "A1", card_details := validCard },
    rand := mkRat 1 2, txn := "txn_b" }

/-- A store holding only the sample theater, with no seats yet. -/
def seatDb0 : DB :=
  { theaters := [sampleTheater], showtimes := [], seats := [], bookings := [],
    reviews := [], nextSeatId := 1, nextBookingId := 1, nextReviewId := 1 }

/-! ## Theorems -/

/-- C2 (amended): for every card whose string form is not exactly 16
characters long, `process_payment` returns failure with the invalid-card
error, independently of the random decline draw and of the amount. -/
theorem process_payment_wrong_length (card_details : Option CardInfo)
    (amount rand : Rat) (txn : String)
    (h : (cardNumberStr card_details).length ≠ 16) :
    process_payment card_details amount rand txn =
      { success := false, transaction_id := none,
        error := some "Invalid Card Number: Must be 16 digits." } := by
  simp [process_payment, h]

/-- Witness for `process_payment_wrong_length`: a missing card number has
string form `""`, of length 0, and is rejected as an invalid card. -/
theorem process_payment_wrong_length_witness :
    (cardNumberStr none).length ≠ 16 ∧
      process_payment none 10 0 "t" =
        { success := false, transaction_id := none,
          error := some "Invalid Card Number: Must be 16 digits." } :=
  ⟨by decide, process_payment_wrong_length none 10 0 "t" (by decide)⟩

/-- C2 (counterexample): the gateway checks only the length of the card
number's string form, not that its characters are digits.  The 16-letter card
number `"ABCDEFGHIJKLMNOP"` is not a 16-digit number, yet with a random draw
of 1/2 the payment succeeds, refuting "a card number not exactly 16 digits
always yields payment failure". -/
theorem process_payment_nondigit_card_succeeds :
    isSixteenDigits (cardNumberStr (some { number := some "ABCDEFGHIJKLMNOP" })) = false ∧
      (process_payment (some { number := some "ABCDEFGHIJKLMNOP" }) 10 (mkRat 1 2) "txn_x").success
        = true := by
  constructor
  · decide
  · decide

/-- C7: the review endpoint's verdict is `"Positive"` exactly when the
sentiment polarity is strictly greater than 0, and `"Negative"` otherwise;
in particular a polarity of exactly 0 yields `"Negative"`. -/
theorem add_review_verdict (user_id movie_id : Nat) (text : String)
    (rating : Int) (polarity : Rat) (db : DB) :
    (((add_review user_id movie_id text rating polarity db).1.verdict = "Positive")
        ↔ 0 < polarity)
    ∧ (((add_review user_id movie_id text rating polarity db).1.verdict = "Negative")
        ↔ ¬ 0 < polarity) := by
  by_cases h : (0 : Rat) < polarity <;> simp [add_review, h]

/-- C4: a booking request whose showtime id does not resolve to an existing
`Showtime` fails with the 404 `Showtime not found` response, leaves the store
unchanged, and emits no event. -/
theorem book_ticket_notFound (user_id : Nat) (req : BookingRequest)
    (rand : Rat) (txn : String) (db : DB)
    (h : db.showtimes.find? (fun s => s.id == req.showtime_id) = none) :
    book_ticket user_id req rand txn db
        = (.err (.notFound "Showtime not found"), db, [])
    ∧ statusCode (book_ticket user_id req rand txn db).1 = 404 := by
  have hc : bookCheckPhase req rand txn db = some (.notFound "Showtime not found") := by
    simp [bookCheckPhase, h]
  simp [book_ticket, hc, statusCode]

/-- Witness for `book_ticket_notFound`: booking showtime 1 on the empty
store. -/
theorem book_ticket_notFound_witness :
    emptyDb.showtimes.find? (fun s => s.id == (1 : Nat)) = none ∧
      (book_ticket 7 { showtime_id := 1, seat_code := "A1", card_details := validCard }
          (mkRat 1 2) "t" emptyDb
        = (.err (.notFound "Showtime not found"), emptyDb, [])
      ∧ statusCode (book_ticket 7
          { showtime_id := 1, seat_code := "A1", card_details := validCard }
          (mkRat 1 2) "t" emptyDb).1 = 404) :=
  ⟨rfl, book_ticket_notFound 7 _ (mkRat 1 2) "t" emptyDb rfl⟩

/-- C5: a booking request whose seat code is not registered for the
showtime's theater fails with the 400 seat-does-not-exist response, leaves
the store unchanged (in particular creates no `Booking`), and emits no
event. -/
theorem book_ticket_invalidSeat (user_id : Nat) (req : BookingRequest)
    (rand : Rat) (txn : String) (db : DB) (showtime : Showtime)
    (h1 : db.showtimes.find? (fun s => s.id == req.showtime_id) = some showtime)
    (h2 : db.seats.find? (fun s =>
        s.theater_id == showtime.theater_id && s.code == req.seat_code) = none) :
    book_ticket user_id req rand txn db
        = (.err (.invalidSeat
            ("Seat " ++ req.seat_code ++ " does not exist in this theater!")), db, [])
    ∧ statusCode (book_ticket user_id req rand txn db).1 = 400 := by
  have hc : bookCheckPhase req rand txn db
      = some (.invalidSeat
          ("Seat " ++ req.seat_code ++ " does not exist in this theater!")) := by
    simp [bookCheckPhase, h1, h2]
  simp [book_ticket, hc, statusCode]

/-- Witness for `book_ticket_invalidSeat`: seat `Z9` is not registered for
the sample theater. -/
theorem book_ticket_invalidSeat_witness :
    sampleDb.showtimes.find? (fun s => s.id == (1 : Nat)) = some sampleShow1 ∧
      sampleDb.seats.find? (fun s =>
          s.theater_id == sampleShow1.theater_id && s.code == "Z9") = none ∧
      (book_ticket 7 { showtime_id := 1, seat_code := "Z9", card_details := validCard }
          (mkRat 1 2) "t" sampleDb
        = (.err (.invalidSeat "Seat Z9 does not exist in this theater!"), sampleDb, [])
      ∧ statusCode (book_ticket 7
          { showtime_id := 1, seat_code := "Z9", card_details := validCard }
          (mkRat 1 2) "t" sampleDb).1 = 400) :=
  ⟨rfl, rfl,
    book_ticket_invalidSeat 7
      { showtime_id := 1, seat_code := "Z9", card_details := validCard }
      (mkRat 1 2) "t" sampleDb sampleShow1 rfl rfl⟩

/-- C3: when the payment gateway reports failure, `book_ticket` returns the
400 `Payment Failed` response carrying the gateway's `error` field verbatim,
the store is returned unchanged (no `Booking` is persisted), and no event is
emitted. -/
theorem book_ticket_payment_failed (user_id : Nat) (req : BookingRequest)
    (rand : Rat) (txn : String) (db : DB) (showtime : Showtime) (seat : Seat)
    (h1 : db.showtimes.find? (fun s => s.id == req.showtime_id) = some showtime)
    (h2 : db.seats.find? (fun s =>
        s.theater_id == showtime.theater_id && s.code == req.seat_code) = some seat)
    (h3 : db.bookings.find? (fun b =>
        b.showtime_id == req.showtime_id && b.seat_code == req.seat_code) = none)
    (h4 : (process_payment req.card_details showtime.price rand txn).success = false) :
    book_ticket user_id req rand txn db
        = (.err (.paymentFailed "Payment Failed"
            (process_payment req.card_details showtime.price rand txn).error), db, [])
    ∧ statusCode (book_ticket user_id req rand txn db).1 = 400 := by
  have hc : bookCheckPhase req rand txn db
      = some (.paymentFailed "Payment Failed"
          (process_payment req.card_details showtime.price rand txn).error) := by
    simp [bookCheckPhase, h1, h2, h3, h4]
  simp [book_ticket, hc, statusCode]

/-- Witness for `book_ticket_payment_failed`: a booking attempt on the sample
store with a missing card number fails at the gateway and persists nothing. -/
theorem book_ticket_payment_failed_witness :
    sampleDb.showtimes.find? (fun s => s.id == (1 : Nat)) = some sampleShow1 ∧
      sampleDb.seats.find? (fun s =>
          s.theater_id == sampleShow1.theater_id && s.code == "A1")
        = some { id := 1, row := "A", number := 1, code := "A1", theater_id := 1 } ∧
      sampleDb.bookings.find? (fun b =>
          b.showtime_id == (1 : Nat) && b.seat_code == "A1") = none ∧
      (process_payment none sampleShow1.price (mkRat 1 2) "t").success = false ∧
      (book_ticket 7 { showtime_id := 1, seat_code := "A1", card_details := none }
          (mkRat 1 2) "t" sampleDb
        = (.err (.paymentFailed "Payment Failed"
            (process_payment none sampleShow1.price (mkRat 1 2) "t").error), sampleDb, [])
      ∧ statusCode (book_ticket 7
          { showtime_id := 1, seat_code := "A1", card_details := none }
          (mkRat 1 2) "t" sampleDb).1 = 400) :=
  ⟨rfl, rfl, rfl, rfl,
    book_ticket_payment_failed 7
      { showtime_id := 1, seat_code := "A1", card_details := none }
      (mkRat 1 2) "t" sampleDb sampleShow1
      { id := 1, row := "A", number := 1, code := "A1", theater_id := 1 }
      rfl rfl rfl rfl⟩

/-- C10: a booking request that omits `card_details` (or whose `card_details`
has no `number` field) is handled by the payment path, not as a malformed
request: the missing field defaults to the empty string, the gateway rejects
it as an invalid card, and the handler returns the 400 `Payment Failed`
response with the invalid-card error and persists no `Booking`. -/
theorem book_ticket_missing_card (user_id : Nat) (req : BookingRequest)
    (rand : Rat) (txn : String) (db : DB) (showtime : Showtime) (seat : Seat)
    (h1 : db.showtimes.find? (fun s => s.id == req.showtime_id) = some showtime)
    (h2 : db.seats.find? (fun s =>
        s.theater_id == showtime.theater_id && s.code == req.seat_code) = some seat)
    (h3 : db.bookings.find? (fun b =>
        b.showtime_id == req.showtime_id && b.seat_code == req.seat_code) = none)
    (hcard : req.card_details = none
      ∨ ∃ c, req.card_details = some c ∧ c.number = none) :
    book_ticket user_id req rand txn db
        = (.err (.paymentFailed "Payment Failed"
            (some "Invalid Card Number: Must be 16 digits.")), db, [])
    ∧ statusCode (book_ticket user_id req rand txn db).1 = 400 := by
  have hnum : cardNumberStr req.card_details = "" := by
    rcases hcard with h | ⟨c, hcs, hn⟩
    · simp [cardNumberStr, h]
    · simp [cardNumberStr, hcs, hn]
  have hpay : process_payment req.card_details showtime.price rand txn
      = { success := false, transaction_id := none,
          error := some "Invalid Card Number: Must be 16 digits." } := by
    have hlen : (cardNumberStr req.card_details).length ≠ 16 := by
      rw [hnum]; decide
    simp [process_payment, hlen]
  have hc : bookCheckPhase req rand txn db
      = some (.paymentFailed "Payment Failed"
          (some "Invalid Card Number: Must be 16 digits.")) := by
    simp [bookCheckPhase, h1, h2, h3, hpay]
  simp [book_ticket, hc, statusCode]

/-- Witness for `book_ticket_missing_card`: booking seat `A1` of showtime 1
on the sample store with no `card_details` in the body. -/
theorem book_ticket_missing_card_witness :
    sampleDb.showtimes.find? (fun s => s.id == (1 : Nat)) = some sampleShow1 ∧
      sampleDb.seats.find? (fun s =>
          s.theater_id == sampleShow1.theater_id && s.code == "A1")
        = some { id := 1, row := "A", number := 1, code := "A1", theater_id := 1 } ∧
      sampleDb.bookings.find? (fun b =>
          b.showtime_id == (1 : Nat) && b.seat_code == "A1") = none ∧
      (book_ticket 7 { showtime_id := 1, seat_code := "A1", card_details := none }
          (mkRat 1 2) "t" sampleDb
        = (.err (.paymentFailed "Payment Failed"
            (some "Invalid Card Number: Must be 16 digits.")), sampleDb, [])
      ∧ statusCode (book_ticket 7
          { showtime_id := 1, seat_code := "A1", card_details := none }
          (mkRat 1 2) "t" sampleDb).1 = 400) :=
  ⟨rfl, rfl, rfl,
    book_ticket_missing_card 7
      { showtime_id := 1, seat_code := "A1", card_details := none }
      (mkRat 1 2) "t" sampleDb sampleShow1
      { id := 1, row := "A", number := 1, code := "A1", theater_id := 1 }
      rfl rfl rfl (Or.inl rfl)⟩

/-- C9: `book_ticket` emits exactly one `seat_booked` event, carrying the
request's `(showtime_id, seat_code)` pair, when and only when it returns the
201 success response; every failed attempt emits no event. -/
theorem book_ticket_seat_booked_event (user_id : Nat) (req : BookingRequest)
    (rand : Rat) (txn : String) (db : DB) :
    (book_ticket user_id req rand txn db).2.2
      = if (book_ticket user_id req rand txn db).1.isSuccess then
          [{ name := "seat_booked", showtime_id := req.showtime_id,
             seat_code := req.seat_code }]
        else [] := by
  unfold book_ticket
  cases hc : bookCheckPhase req rand txn db with
  | some e => simp [BookResult.isSuccess]
  | none => simp [bookCommitPhase, BookResult.isSuccess]

/-- C6: seat availability is scoped per showtime.  In a store where seat code
`C` is already booked for showtime `S1`, a booking attempt for `C` on a
different showtime `S2` (whose theater registers the seat, with the pair
`(S2, C)` still free and the payment succeeding) is confirmed, while a second
booking attempt for `C` on `S1` fails with the seat-taken error. -/
theorem booking_scope_per_showtime (u1 u2 S1 S2 : Nat) (C : String)
    (card1 card2 : Option CardInfo) (rand1 rand2 : Rat) (txn1 txn2 : String)
    (db : DB) (b : Booking) (st1 st2 : Showtime) (seat1 seat2 : Seat)
    (_hne : S1 ≠ S2)
    (hb : db.bookings.find? (fun bk => bk.showtime_id == S1 && bk.seat_code == C) = some b)
    (hs1 : db.showtimes.find? (fun s => s.id == S1) = some st1)
    (hseat1 : db.seats.find? (fun s =>
        s.theater_id == st1.theater_id && s.code == C) = some seat1)
    (hs2 : db.showtimes.find? (fun s => s.id == S2) = some st2)
    (hseat2 : db.seats.find? (fun s =>
        s.theater_id == st2.theater_id && s.code == C) = some seat2)
    (hfree2 : db.bookings.find? (fun bk => bk.showtime_id == S2 && bk.seat_code == C) = none)
    (hpay2 : (process_payment card2 st2.price rand2 txn2).success = true) :
    (book_ticket u2 { showtime_id := S2, seat_code := C, card_details := card2 }
        rand2 txn2 db).1 = .confirmed db.nextBookingId txn2
    ∧ (book_ticket u1 { showtime_id := S1, seat_code := C, card_details := card1 }
        rand1 txn1 db).1 = .err (.seatTaken "Sorry, that seat is already booked!") := by
  constructor
  · have hc : bookCheckPhase { showtime_id := S2, seat_code := C, card_details := card2 }
        rand2 txn2 db = none := by
      simp [bookCheckPhase, hs2, hseat2, hfree2, hpay2]
    simp [book_ticket, hc, bookCommitPhase]
  · have hc : bookCheckPhase { showtime_id := S1, seat_code := C, card_details := card1 }
        rand1 txn1 db
        = some (.seatTaken "Sorry, that seat is already booked!") := by
      simp [bookCheckPhase, hs1, hseat1, hb]
    simp [book_ticket, hc]

/-- Witness for `booking_scope_per_showtime`: with `A1` booked for showtime 1
in the sample store, booking `A1` on showtime 2 is confirmed while a second
booking of `A1` on showtime 1 is rejected as taken. -/
theorem booking_scope_per_showtime_witness :
    (1 : Nat) ≠ 2 ∧
      bookedDb.bookings.find? (fun bk => bk.showtime_id == (1 : Nat) && bk.seat_code == "A1")
        = some { id := 1, seat_code := "A1", user_id := 7, showtime_id := 1 } ∧
      bookedDb.showtimes.find? (fun s => s.id == (1 : Nat)) = some sampleShow1 ∧
      bookedDb.seats.find? (fun s => s.theater_id == sampleShow1.theater_id && s.code == "A1")
        = some { id := 1, row := "A", number := 1, code := "A1", theater_id := 1 } ∧
      bookedDb.showtimes.find? (fun s => s.id == (2 : Nat)) = some sampleShow2 ∧
      bookedDb.seats.find? (fun s => s.theater_id == sampleShow2.theater_id && s.code == "A1")
        = some { id := 1, row := "A", number := 1, code := "A1", theater_id := 1 } ∧
      bookedDb.bookings.find? (fun bk => bk.showtime_id == (2 : Nat) && bk.seat_code == "A1")
        = none ∧
      (process_payment validCard sampleShow2.price (mkRat 1 2) "txn_c").success = true ∧
      ((book_ticket 8 { showtime_id := 2, seat_code := "A1", card_details := validCard }
          (mkRat 1 2) "txn_c" bookedDb).1 = .confirmed bookedDb.nextBookingId "txn_c"
      ∧ (book_ticket 9 { showtime_id := 1, seat_code := "A1", card_details := validCard }
          (mkRat 1 2) "txn_d" bookedDb).1
          = .err (.seatTaken "Sorry, that seat is already booked!")) :=
  ⟨by decide, rfl, rfl, rfl, rfl, rfl, rfl, rfl,
    booking_scope_per_showtime 9 8 1 2 "A1" validCard validCard
      (mkRat 1 2) (mkRat 1 2) "txn_d" "txn_c" bookedDb
      { id := 1, seat_code := "A1", user_id := 7, showtime_id := 1 }
      sampleShow1 sampleShow2
      { id := 1, row := "A", number := 1, code := "A1", theater_id := 1 }
      { id := 1, row := "A", number := 1, code := "A1", theater_id := 1 }
      (by decide) rfl rfl rfl rfl rfl rfl rfl⟩

/-- When the check phase of `book_ticket` falls through to the insert, the
availability check necessarily found no existing booking for the request's
`(showtime_id, seat_code)` pair. -/
theorem checkPhase_none_seat_free (req : BookingRequest) (rand : Rat)
    (txn : String) (db : DB) (h : bookCheckPhase req rand txn db = none) :
    db.bookings.find? (fun b =>
      b.showtime_id == req.showtime_id && b.seat_code == req.seat_code) = none := by
  unfold bookCheckPhase at h
  split at h
  · exact absurd h (by simp)
  · split at h
    · exact absurd h (by simp)
    · split at h
      · exact absurd h (by simp)
      · assumption

/-- Appending a booking that conflicts with no existing booking preserves the
uniqueness invariant. -/
theorem noDupSeatPairs_append (l : List Booking) (b : Booking)
    (h : noDupSeatPairs l = true) (hb : ∀ x ∈ l, seatConflict x b = false) :
    noDupSeatPairs (l ++ [b]) = true := by
  induction l with
  | nil => simp [noDupSeatPairs]
  | cons a t ih =>
    simp only [noDupSeatPairs, Bool.and_eq_true, Bool.not_eq_true'] at h
    simp only [List.cons_append, noDupSeatPairs, Bool.and_eq_true, Bool.not_eq_true']
    refine ⟨?_, ih h.2 (fun x hx => hb x (List.mem_cons_of_mem a hx))⟩
    show (t ++ [b]).any (seatConflict a) = false
    rw [List.any_append]
    simp [h.1, hb a (List.mem_cons_self a t)]

/-- One atomic `book_ticket` request preserves the uniqueness invariant on
bookings: it only inserts after its availability check found the pair
free. -/
theorem book_ticket_preserves_noDup (user_id : Nat) (req : BookingRequest)
    (rand : Rat) (txn : String) (db : DB)
    (h : noDupSeatPairs db.bookings = true) :
    noDupSeatPairs (book_ticket user_id req rand txn db).2.1.bookings = true := by
  unfold book_ticket
  cases hc : bookCheckPhase req rand txn db with
  | some e => simpa using h
  | none =>
    have hf := checkPhase_none_seat_free req rand txn db hc
    dsimp [bookCommitPhase]
    apply noDupSeatPairs_append _ _ h
    intro x hx
    have hnx := List.find?_eq_none.mp hf x hx
    simpa [seatConflict] using hnx

/-- C1 (amended, sequential part): after any sequence of booking attempts
executed sequentially — each request handled atomically to completion — the
store still holds at most one `Booking` per `(showtime_id, seat_code)` pair,
provided the invariant held initially. -/
theorem runSeq_preserves_noDup (attempts : List BookAttempt) (db : DB)
    (h : noDupSeatPairs db.bookings = true) :
    noDupSeatPairs (runSeq attempts db).bookings = true := by
  induction attempts generalizing db with
  | nil => simpa [runSeq] using h
  | cons a t ih =>
    rw [runSeq, List.foldl_cons]
    exact ih _ (book_ticket_preserves_noDup a.user_id a.req a.rand a.txn db h)

/-- Witness for `runSeq_preserves_noDup`: two sequential attempts for the
same seat on the sample store leave the bookings table free of duplicate
pairs. -/
theorem runSeq_preserves_noDup_witness :
    noDupSeatPairs sampleDb.bookings = true ∧
      noDupSeatPairs (runSeq [attemptA, attemptB] sampleDb).bookings = true :=
  ⟨rfl, runSeq_preserves_noDup [attemptA, attemptB] sampleDb rfl⟩

/-- C1 (counterexample, concurrent part): interleaving two booking attempts
for the same seat of the same showtime — both availability checks run before
either insert, the schedule `[0, 1, 0, 1]` — commits two `Booking` records
with the same `(showtime_id, seat_code)` pair, violating the invariant that
the claim asserts "including concurrent" attempts. -/
theorem concurrent_double_booking :
    ((runSchedule [0, 1, 0, 1] (initConc [attemptA, attemptB] sampleDb)).db.bookings.map
        (fun b => (b.showtime_id, b.seat_code))) = [(1, "A1"), (1, "A1")]
    ∧ noDupSeatPairs
        (runSchedule [0, 1, 0, 1] (initConc [attemptA, attemptB] sampleDb)).db.bookings
        = false :=
  ⟨rfl, rfl⟩

/-- One step of the seat-creation inner loop appends exactly one seat record
`(row, i+1, row ++ (i+1), theaterId)` and one created code, with no check
against the seats already present. -/
theorem addSeatStep_spec (theaterId : Nat) (row : String)
    (acc : DB × List String) (i : Nat) :
    (addSeatStep theaterId row acc i).1.seats.map seatData
        = acc.1.seats.map seatData ++ [(row, i + 1, row ++ toString (i + 1), theaterId)]
    ∧ (addSeatStep theaterId row acc i).2 = acc.2 ++ [row ++ toString (i + 1)] := by
  simp [addSeatStep, seatData]

/-- The seat-creation inner loop over one row appends exactly the seats
numbered `1..n` of that row, in order. -/
theorem addRowSeats_spec (theaterId n : Nat) (acc : DB × List String)
    (row : String) :
    (addRowSeats theaterId n acc row).1.seats.map seatData
        = acc.1.seats.map seatData
          ++ (List.range n).map (fun i => (row, i + 1, row ++ toString (i + 1), theaterId))
    ∧ (addRowSeats theaterId n acc row).2
        = acc.2 ++ (List.range n).map (fun i => row ++ toString (i + 1)) := by
  induction n with
  | zero => simp [addRowSeats]
  | succ m ih =>
    unfold addRowSeats at ih ⊢
    rw [List.range_succ, List.foldl_append, List.foldl_cons, List.foldl_nil]
    constructor
    · rw [(addSeatStep_spec theaterId row _ m).1, ih.1]
      simp [List.range_succ]
    · rw [(addSeatStep_spec theaterId row _ m).2, ih.2]
      simp [List.range_succ]

/-- The seat-creation outer loop appends exactly the row-by-row generated
seats for every listed row, duplicates included. -/
theorem rowsFoldl_spec (theaterId n : Nat) (rows : List String)
    (acc : DB × List String) :
    (rows.foldl (addRowSeats theaterId n) acc).1.seats.map seatData
        = acc.1.seats.map seatData
          ++ rows.flatMap (fun row => (List.range n).map
              (fun i => (row, i + 1, row ++ toString (i + 1), theaterId)))
    ∧ (rows.foldl (addRowSeats theaterId n) acc).2
        = acc.2 ++ rows.flatMap (fun row => (List.range n).map
            (fun i => row ++ toString (i + 1))) := by
  induction rows generalizing acc with
  | nil => simp
  | cons r rest ih =>
    rw [List.foldl_cons]
    constructor
    · rw [(ih _).1, (addRowSeats_spec theaterId n acc r).1]
      simp
    · rw [(ih _).2, (addRowSeats_spec theaterId n acc r).2]
      simp

/-- C8 (amended): seat creation enforces no uniqueness of codes.  When the
theater exists, `add_seats_to_theater` appends exactly one `Seat` per
`(row, number)` combination of the request — code `row ++ number`, duplicates
included — with no check against existing seats or within the request, and
reports exactly those codes as created. -/
theorem add_seats_no_uniqueness_check (theater_id : Nat) (req : SeatRequest)
    (db db2 : DB) (created : List String)
    (h : add_seats_to_theater theater_id req db = some (db2, created)) :
    db2.seats.map seatData
        = db.seats.map seatData
          ++ req.rows.flatMap (fun row => (List.range req.seats_per_row).map
              (fun i => (row, i + 1, row ++ toString (i + 1), theater_id)))
    ∧ created = req.rows.flatMap (fun row => (List.range req.seats_per_row).map
          (fun i => row ++ toString (i + 1))) := by
  unfold add_seats_to_theater at h
  cases hf : db.theaters.find? (fun t => t.id == theater_id) with
  | none => rw [hf] at h; exact absurd h (by simp)
  | some theater =>
    rw [hf] at h
    have hid : theater.id = theater_id := by
      have hpred := List.find?_some hf
      simpa using hpred
    have hdb2 : db2 = (req.rows.foldl (addRowSeats theater.id req.seats_per_row) (db, [])).1 := by
      have := congrArg Prod.fst (Option.some.inj h)
      exact this.symm
    have hcr : created = (req.rows.foldl (addRowSeats theater.id req.seats_per_row) (db, [])).2 := by
      have := congrArg Prod.snd (Option.some.inj h)
      exact this.symm
    rw [hdb2, hcr, hid]
    exact rowsFoldl_spec theater_id req.seats_per_row req.rows (db, [])

/-- Witness for `add_seats_no_uniqueness_check`: creating row `A` with two
seats per row in the sample theater. -/
theorem add_seats_no_uniqueness_check_witness :
    add_seats_to_theater 1 { rows := ["A"], seats_per_row := 2 } seatDb0
        = some ({ theaters := [sampleTheater], showtimes := [],
                  seats := [{ id := 1, row := "A", number := 1, code := "A1", theater_id := 1 },
                            { id := 2, row := "A", number := 2, code := "A2", theater_id := 1 }],
                  bookings := [], reviews := [],
                  nextSeatId := 3, nextBookingId := 1, nextReviewId := 1 }, ["A1", "A2"]) ∧
      (({ theaters := [sampleTheater], showtimes := [],
          seats := [{ id := 1, row := "A", number := 1, code := "A1", theater_id := 1 },
                    { id := 2, row := "A", number := 2, code := "A2", theater_id := 1 }],
          bookings := [], reviews := [],
          nextSeatId := 3, nextBookingId := 1, nextReviewId := 1 } : DB).seats.map seatData
          = seatDb0.seats.map seatData
            ++ (["A"] : List String).flatMap (fun row => (List.range 2).map
                (fun i => (row, i + 1, row ++ toString (i + 1), 1)))
      ∧ (["A1", "A2"] : List String)
          = (["A"] : List String).flatMap (fun row => (List.range 2).map
              (fun i => row ++ toString (i + 1)))) :=
  ⟨rfl, add_seats_no_uniqueness_check 1 { rows := ["A"], seats_per_row := 2 } seatDb0 _ _ rfl⟩

/-- C8 (counterexample): a single seat-creation request whose `rows` list
repeats `"A"` creates two seats with the same code `A1` in the same theater,
refuting the claim that no two `Seat` records of a theater ever share a
code. -/
theorem duplicate_seat_codes :
    (add_seats_to_theater 1 { rows := ["A", "A"], seats_per_row := 1 } seatDb0).map
        (fun p => (p.1.seats.map (fun s => (s.theater_id, s.code)), noDupSeatCodes p.1.seats))
      = some ([(1, "A1"), (1, "A1")], false) :=
  rfl

end MovieApi
